import Mathlib

/-!
Shallow embedding of the valuation engine of `valuation_professional.py`
(together with the service facade of `valuation_service.py`), and proofs
about it.

Conventions of the embedding:
* Python floats are modelled as exact rationals (`ℚ`); the properties at
  stake are algebraic, not rounding properties.
* A Python function that can raise (`ZeroDivisionError`, tuple-unpack
  `TypeError`) is modelled with `Option`: `none` is an exception escaping
  the function.  Each `none` branch is annotated with the raising source
  line.  Where a division is syntactically guarded in the source
  (`x / y if y > 0 else d`) the branch structure is kept verbatim.
* `random.gauss(0, sigma)` draws are modelled by an explicit ambient
  stream `s : ℕ → ℚ × ℚ` of standard draws, scaled by the volatility
  (`gauss(0, sigma) = sigma * gauss(0, 1)` in distribution); the stream
  stands for the state of the global `random` module, which the source
  reads and which no caller can seed through the engine interface.
* `print` calls are I/O and are not part of the embedding; values that
  are only printed and never returned (for example the Monte Carlo
  standard deviation, an irrational square root) are omitted.
-/

/-- The per-company input record read by `enhanced_dcf_valuation`
(source lines 130-161): one field per key of `company_data`. -/
structure CompanyData where
  name : String
  sector : String
  revenue : ℚ
  ebitda : ℚ
  depreciation : ℚ
  capex_pct : ℚ
  working_capital_change : ℚ
  profit_margin : ℚ
  growth_rate_y1 : ℚ
  growth_rate_y2 : ℚ
  growth_rate_y3 : ℚ
  terminal_growth : ℚ
  tax_rate : ℚ
  shares_outstanding : ℚ
  debt : ℚ
  cash : ℚ
  market_cap_estimate : ℚ
  beta : ℚ
  risk_free_rate : ℚ
  market_risk_premium : ℚ
  country_risk_premium : ℚ
  size_premium : ℚ
  comparable_ev_ebitda : ℚ
  comparable_pe : ℚ
  comparable_peg : ℚ
  deriving DecidableEq

/-- CAPM cost of equity (source line 22). -/
def cost_of_equity (risk_free_rate beta market_risk_premium country_risk size_premium : ℚ) : ℚ :=
  risk_free_rate + beta * market_risk_premium + country_risk + size_premium

/-- `calculate_wacc` (source lines 19-38).  The Python function returns a
bare float when `total_value == 0` (line 31) and a 3-tuple
`(wacc, cost_of_equity, cost_of_debt)` otherwise (line 38); the two
return shapes are modelled by the two summands. -/
def calculate_wacc (risk_free_rate beta market_risk_premium debt equity_value tax_rate
    country_risk size_premium : ℚ) : Sum ℚ (ℚ × ℚ × ℚ) :=
  let coe := cost_of_equity risk_free_rate beta market_risk_premium country_risk size_premium
  let credit_spread : ℚ := if debt > equity_value then 25/1000 else 15/1000
  let cost_of_debt := risk_free_rate + credit_spread
  let total_value := debt + equity_value
  if total_value = 0 then
    Sum.inl coe
  else
    let weight_equity := equity_value / total_value
    let weight_debt := debt / total_value
    let wacc := weight_equity * coe + weight_debt * cost_of_debt * (1 - tax_rate)
    Sum.inr (wacc, coe, cost_of_debt)

/-- The ratio record built by `calculate_financial_ratios` (source lines
40-68), one field per key of the `ratios` dict. -/
structure Ratios where
  ev : ℚ
  ev_ebitda : ℚ
  ev_revenue : ℚ
  pe : ℚ
  price_per_share : ℚ
  fcf_yield : ℚ
  debt_to_equity : ℚ
  debt_to_ebitda : ℚ
  net_debt : ℚ
  net_debt_to_ebitda : ℚ
  ebitda_margin : ℚ
  profit_margin : ℚ
  roe : ℚ
  roic : ℚ
  interest_coverage : ℚ
  deriving DecidableEq

/-- `calculate_financial_ratios` (source lines 40-68).  Every division is
syntactically guarded in the source; the guards are kept verbatim, so the
function is total and never divides by zero. -/
def calculate_financial_ratios (revenue ebitda profit debt cash equity_value shares fcf : ℚ) :
    Ratios :=
  let ev := equity_value + debt - cash
  let net_debt := debt - cash
  let interest_expense := debt * (5/100)
  { ev := ev
    ev_ebitda := if ebitda > 0 then ev / ebitda else 0
    ev_revenue := if revenue > 0 then ev / revenue else 0
    pe := if profit > 0 then equity_value / profit else 0
    price_per_share := if shares > 0 then equity_value / shares else 0
    fcf_yield := if equity_value > 0 then fcf / equity_value * 100 else 0
    debt_to_equity := if equity_value > 0 then debt / equity_value else 0
    debt_to_ebitda := if ebitda > 0 then debt / ebitda else 0
    net_debt := net_debt
    net_debt_to_ebitda := if ebitda > 0 then net_debt / ebitda else 0
    ebitda_margin := if revenue > 0 then ebitda / revenue * 100 else 0
    profit_margin := if revenue > 0 then profit / revenue * 100 else 0
    roe := if equity_value > 0 then profit / equity_value * 100 else 0
    roic := if debt + equity_value > 0 then profit * (8/10) / (debt + equity_value) * 100 else 0
    interest_coverage := if interest_expense > 0 then ebitda / interest_expense else 999 }

/-- `altman_z_score` (source lines 70-90): the score and its zone label. -/
def altman_z_score (revenue ebitda equity_value debt working_capital : ℚ) : ℚ × String :=
  let total_assets := equity_value + debt
  let x1 := if total_assets > 0 then working_capital / total_assets else 0
  let x2 := if total_assets > 0 then ebitda * (6/10) / total_assets else 0
  let x3 := if total_assets > 0 then ebitda / total_assets else 0
  let x4 := if debt > 0 then equity_value / debt else 10
  let x5 := if total_assets > 0 then revenue / total_assets else 0
  let z := (12/10) * x1 + (14/10) * x2 + (33/10) * x3 + (6/10) * x4 + 1 * x5
  if z > 299/100 then (z, "Safe Zone")
  else if z > 181/100 then (z, "Grey Zone")
  else (z, "Distress Zone")

/-- The recommendation ladder (source lines 364-378), a function of the
upside percentage alone. -/
def recommendation (upside : ℚ) : String :=
  if upside > 20 then "STRONG BUY"
  else if upside > 10 then "BUY"
  else if upside > -10 then "HOLD"
  else if upside > -20 then "UNDERWEIGHT"
  else "SELL"

/-- The ten-year growth schedule (source lines 192-196). -/
def growth_schedule (d : CompanyData) : List ℚ :=
  [d.growth_rate_y1, d.growth_rate_y1, d.growth_rate_y2, d.growth_rate_y2, d.growth_rate_y3,
   d.growth_rate_y3, (d.growth_rate_y3 + d.terminal_growth) / 2, d.terminal_growth + 1/100,
   d.terminal_growth + 1/200, d.terminal_growth]

/-- The loop state of the ten-year projection loop (source lines 187-189):
`current_revenue`, the running `total_pv_fcf`, and the `projected_fcf`
list, in the order they are initialised. -/
structure ProjAcc where
  current_revenue : ℚ
  total_pv_fcf : ℚ
  projected_fcf : List ℚ
  deriving DecidableEq

/-- One iteration of the projection loop (source lines 198-214), for loop
index `i` (the source's `year` is `i + 1`, and `growth_rate` is
`growth_schedule[year - 1]`). -/
def projStep (d : CompanyData) (wacc : ℚ) (acc : ProjAcc) (i : ℕ) : ProjAcc :=
  let year := i + 1
  let growth_rate := (growth_schedule d).getD i 0
  let current_revenue := acc.current_revenue * (1 + growth_rate)
  let year_ebitda := current_revenue * (d.ebitda / d.revenue)
  let year_da := current_revenue * (d.depreciation / d.revenue)
  let year_ebit := year_ebitda - year_da
  let year_nopat := year_ebit * (1 - d.tax_rate)
  let year_capex := current_revenue * d.capex_pct
  let year_wc := d.working_capital_change * (1 + growth_rate) ^ year
  let year_fcf := year_nopat + year_da - year_capex - year_wc
  let discount_factor := 1 / (1 + wacc) ^ year
  let pv_fcf := year_fcf * discount_factor
  { current_revenue := current_revenue
    total_pv_fcf := acc.total_pv_fcf + pv_fcf
    projected_fcf := acc.projected_fcf ++ [year_fcf] }

/-- The whole projection loop `for year in range(1, 11)` (source lines
198-216), as a left fold over the loop indices. -/
def runProjection (d : CompanyData) (wacc : ℚ) : ProjAcc :=
  (List.range 10).foldl (projStep d wacc)
    { current_revenue := d.revenue
      total_pv_fcf := 0
      projected_fcf := [] }

/-- Growth rate applied in year `t` (`schedule[year - 1]`): the claim-side
view of the schedule as a function of the year number. -/
def g_t (d : CompanyData) (t : ℕ) : ℚ :=
  (growth_schedule d).getD (t - 1) 0

/-- Claim-side closed form: revenue after year `t`,
`revenue_t = revenue_(t-1) * (1 + g_t)` with `revenue_0` the base-year
revenue. -/
def yearRevenue (d : CompanyData) : ℕ → ℚ
  | 0 => d.revenue
  | t + 1 => yearRevenue d t * (1 + g_t d (t + 1))

/-- Claim-side closed form for the year-`t` free cash flow:
EBITDA and D and A at the base-year margins, NOPAT after tax, capex as a
fixed share of revenue, and the working-capital charge
`working_capital_change * (1 + g_t)^t`. -/
def yearFCF (d : CompanyData) (t : ℕ) : ℚ :=
  let r := yearRevenue d t
  let ebitda_t := r * (d.ebitda / d.revenue)
  let da_t := r * (d.depreciation / d.revenue)
  let nopat_t := (ebitda_t - da_t) * (1 - d.tax_rate)
  let capex_t := r * d.capex_pct
  let wc_t := d.working_capital_change * (1 + g_t d t) ^ t
  nopat_t + da_t - capex_t - wc_t

/-- `terminal_fcf = projected_fcf[-1] * (1 + terminal_growth)` (source
line 219), from the pre-clamp terminal growth. -/
def terminal_fcf (d : CompanyData) (wacc : ℚ) : ℚ :=
  ((runProjection d wacc).projected_fcf).getLastD 0 * (1 + d.terminal_growth)

/-- The terminal growth actually used in the Gordon denominator: the
reassignment `terminal_growth = min(terminal_growth, wacc - 0.01)` under
`wacc <= terminal_growth` (source lines 221-223). -/
def clamped_tg (d : CompanyData) (wacc : ℚ) : ℚ :=
  if wacc ≤ d.terminal_growth then min d.terminal_growth (wacc - 1/100) else d.terminal_growth

/-- `terminal_value = terminal_fcf / (wacc - terminal_growth)` (source
line 225), with the post-clamp growth in the denominator. -/
def terminal_value (d : CompanyData) (wacc : ℚ) : ℚ :=
  terminal_fcf d wacc / (wacc - clamped_tg d wacc)

/-- `pv_terminal_value` (source line 226). -/
def pv_terminal_value (d : CompanyData) (wacc : ℚ) : ℚ :=
  terminal_value d wacc / (1 + wacc) ^ 10

/-- `dcf_enterprise_value` and `dcf_equity_value` (source lines 235-236). -/
def dcf_equity_value (d : CompanyData) (wacc : ℚ) : ℚ :=
  (runProjection d wacc).total_pv_fcf + pv_terminal_value d wacc + d.cash - d.debt

/-- `dcf_price_per_share` (source line 237). -/
def dcf_price_per_share (d : CompanyData) (wacc : ℚ) : ℚ :=
  dcf_equity_value d wacc / d.shares_outstanding

/-- Comparable EV/EBITDA equity value (source lines 252-253). -/
def comp_equity_ev (d : CompanyData) : ℚ :=
  d.ebitda * d.comparable_ev_ebitda - d.debt + d.cash

/-- `profit = revenue * profit_margin` (source line 255). -/
def profit (d : CompanyData) : ℚ :=
  d.revenue * d.profit_margin

/-- Comparable P/E equity value (source line 256). -/
def comp_pe_method (d : CompanyData) : ℚ :=
  profit d * d.comparable_pe

/-- Weighted blend of the three methods (source lines 273-281):
DCF 0.50, EV/EBITDA 0.25, P/E 0.25. -/
def final_equity_value (d : CompanyData) (wacc : ℚ) : ℚ :=
  dcf_equity_value d wacc * (50/100) + comp_equity_ev d * (25/100) + comp_pe_method d * (25/100)

/-- `final_price_per_share` (source line 282). -/
def final_price_per_share (d : CompanyData) (wacc : ℚ) : ℚ :=
  final_equity_value d wacc / d.shares_outstanding

/-- `upside = ((final_equity_value - market_cap) / market_cap) * 100`
(source line 360). -/
def upside_pct (d : CompanyData) (wacc : ℚ) : ℚ :=
  (final_equity_value d wacc - d.market_cap_estimate) / d.market_cap_estimate * 100

/-- The discount-rate axis of the inline sensitivity grid (source line
314). -/
def dr_range (wacc : ℚ) : List ℚ :=
  [wacc - 2/100, wacc - 1/100, wacc, wacc + 1/100, wacc + 2/100]

/-- The terminal-growth axis of the inline sensitivity grid (source line
319); the source builds it from the post-clamp `terminal_growth`. -/
def tg_range (tg : ℚ) : List ℚ :=
  [tg - 1/100, tg - 1/200, tg, tg + 1/200, tg + 1/100]

/-- One cell of the inline sensitivity grid (source lines 322-330):
printed as N/A when `dr <= tg`, otherwise the equity value at that
discount-rate/terminal-growth pair.  `total_pv` is the base-WACC PV of
the explicit FCF, `tf` the fixed terminal FCF. -/
def sens_cell (total_pv tf cash debt tg dr : ℚ) : Option ℚ :=
  if dr ≤ tg then none
  else
    let tv := tf / (dr - tg)
    let pv_tv := tv / (1 + dr) ^ 10
    let ev := total_pv + pv_tv
    some (ev + cash - debt)

/-- The inline 5 by 5 sensitivity grid (source lines 312-331): rows over
the terminal-growth axis, columns over the discount-rate axis. -/
def sens_grid (d : CompanyData) (wacc : ℚ) : List (List (Option ℚ)) :=
  (tg_range (clamped_tg d wacc)).map fun tg =>
    (dr_range wacc).map fun dr =>
      sens_cell (runProjection d wacc).total_pv_fcf (terminal_fcf d wacc) d.cash d.debt tg dr

/-- The standalone `sensitivity_analysis` routine (source lines 92-105).
The Python dict keyed by the string `TG_{tg}_DR_{dr}` is modelled as an
association list keyed by the `(tg, dr)` pair, in insertion order; the
`continue` on `dr <= tg` drops the cell from the output entirely. -/
def sensitivity_analysis (base_fcf : ℚ) (terminal_growth_range discount_rate_range : List ℚ) :
    List ((ℚ × ℚ) × ℚ) :=
  terminal_growth_range.foldl
    (fun acc tg =>
      discount_rate_range.foldl
        (fun acc2 dr =>
          if dr ≤ tg then acc2
          else
            let tv := base_fcf * (1 + tg) / (dr - tg)
            let pv_terminal := tv / (1 + dr) ^ 5
            acc2 ++ [((tg, dr), pv_terminal)])
        acc)
    []

/-- The summary dict returned by `monte_carlo_valuation` (source lines
119-125).  The printed-only standard deviation (a square root, hence
irrational) is omitted from the embedding. -/
structure MCSummary where
  mean : ℚ
  median : ℚ
  p10 : ℚ
  p90 : ℚ
  deriving DecidableEq

/-- `monte_carlo_valuation` (source lines 107-125).  The iteration `i`
draws `gauss(0, growth_volatility)` and `gauss(0, discount_volatility)`
from the global `random` module; those draws are modelled as
`growth_volatility * (s i).1` and `discount_volatility * (s i).2` for an
ambient stream `s` of standard draws.  Python `sorted` is modelled by
insertion sort (over a linear order every sorting function returns the
same list), and the percentile indices are the source's
`len // 2`, `int(len * 0.1)` and `int(len * 0.9)`, which at the lengths
used here are the floor divisions below. -/
def monte_carlo_valuation (base_value growth_volatility discount_volatility : ℚ)
    (s : ℕ → ℚ × ℚ) (iterations : ℕ) : MCSummary :=
  let results := (List.range iterations).map fun i =>
    base_value * (1 + growth_volatility * (s i).1) / (1 + discount_volatility * (s i).2)
  let sorted := results.insertionSort (· ≤ ·)
  { mean := results.sum / (iterations : ℚ)
    median := sorted.getD (iterations / 2) 0
    p10 := sorted.getD (iterations / 10) 0
    p90 := sorted.getD (9 * iterations / 10) 0 }

/-- The result dict returned by `enhanced_dcf_valuation` (source lines
391-414), one field per key. -/
structure ValuationOutput where
  name : String
  sector : String
  dcf_equity_value : ℚ
  dcf_price_per_share : ℚ
  comp_ev_value : ℚ
  comp_pe_value : ℚ
  final_equity_value : ℚ
  final_price_per_share : ℚ
  market_cap : ℚ
  current_price : ℚ
  upside_pct : ℚ
  recommendation : String
  wacc : ℚ
  ev_ebitda : ℚ
  pe_ratio : ℚ
  fcf_yield : ℚ
  roe : ℚ
  roic : ℚ
  debt_to_equity : ℚ
  z_score : ℚ
  mc_p10 : ℚ
  mc_p90 : ℚ
  deriving DecidableEq

/-- Raise condition of the inline sensitivity loop: a computed cell
(`dr > tg`) divides by `(1 + dr) ** 10` (source line 327), which raises
exactly when some computed cell has `dr = -1`. -/
def sensGridRaises (d : CompanyData) (wacc : ℚ) : Bool :=
  (tg_range (clamped_tg d wacc)).any fun tg =>
    (dr_range wacc).any fun dr => decide (tg < dr) && decide (dr = -1)

/-- `enhanced_dcf_valuation` (source lines 127-414) composed with the
exception handling of `ValuationService.run_valuation`
(valuation_service.py lines 135-156), which catches any exception and
returns `None`.  The guards below collect exactly the raising division
and unpacking sites of the source; `none` means the Python call raised
(and the service returned `None`), `some` is the complete result dict:
* `revenue = 0`: `ebitda / revenue` raises `ZeroDivisionError` (line 202);
* `Sum.inl`: `calculate_wacc` returned a bare float and the 3-tuple
  unpack at line 169 raises `TypeError`;
* `1 + wacc = 0`: `1 / ((1 + wacc) ** year)` raises (lines 210, 226);
* `shares_outstanding = 0`: `dcf_equity_value / shares` raises (line 237);
* `market_cap_estimate = 0`: the upside division raises (line 360);
* `sensGridRaises`: a computed grid cell divides by `(1 - 1) ** 10 = 0`
  (line 327);
* a Monte Carlo iteration with `1 + discount_shock = 0` raises
  (line 116). -/
def enhanced_dcf_valuation (d : CompanyData) (s : ℕ → ℚ × ℚ) : Option ValuationOutput :=
  if d.revenue = 0 then none
  else
    match calculate_wacc d.risk_free_rate d.beta d.market_risk_premium d.debt
        d.market_cap_estimate d.tax_rate d.country_risk_premium d.size_premium with
    | Sum.inl _ => none
    | Sum.inr (wacc, _, _) =>
      if (1 : ℚ) + wacc = 0 then none
      else if d.shares_outstanding = 0 then none
      else if d.market_cap_estimate = 0 then none
      else if sensGridRaises d wacc then none
      else if (List.range 1000).any (fun i => decide ((1 : ℚ) + (1/10) * (s i).2 = 0)) then none
      else
        let fcf_current := ((runProjection d wacc).projected_fcf).headD 0
        let fev := final_equity_value d wacc
        let ratios := calculate_financial_ratios d.revenue d.ebitda (profit d) d.debt d.cash
          fev d.shares_outstanding fcf_current
        let z := altman_z_score d.revenue d.ebitda fev d.debt d.working_capital_change
        let mc := monte_carlo_valuation fev (15/100) (1/10) s 1000
        let upside := upside_pct d wacc
        some
          { name := d.name
            sector := d.sector
            dcf_equity_value := dcf_equity_value d wacc
            dcf_price_per_share := dcf_price_per_share d wacc
            comp_ev_value := comp_equity_ev d
            comp_pe_value := comp_pe_method d
            final_equity_value := fev
            final_price_per_share := final_price_per_share d wacc
            market_cap := d.market_cap_estimate
            current_price := d.market_cap_estimate / d.shares_outstanding
            upside_pct := upside
            recommendation := recommendation upside
            wacc := wacc
            ev_ebitda := ratios.ev_ebitda
            pe_ratio := ratios.pe
            fcf_yield := ratios.fcf_yield
            roe := ratios.roe
            roic := ratios.roic
            debt_to_equity := ratios.debt_to_equity
            z_score := z.1
            mc_p10 := mc.p10
            mc_p90 := mc.p90 }

/-- The end-to-end scenario input of spec §8, property 7. -/
def dspec : CompanyData where
  name := "Scenario"
  sector := "Tech"
  revenue := 5000000
  ebitda := 1500000
  depreciation := 100000
  capex_pct := 5/100
  working_capital_change := -50000
  profit_margin := 15/100
  growth_rate_y1 := 30/100
  growth_rate_y2 := 25/100
  growth_rate_y3 := 20/100
  terminal_growth := 3/100
  tax_rate := 25/100
  shares_outstanding := 1000000
  debt := 500000
  cash := 1000000
  market_cap_estimate := 3000000
  beta := 3/2
  risk_free_rate := 4/100
  market_risk_premium := 7/100
  country_risk_premium := 0
  size_premium := 3/100
  comparable_ev_ebitda := 12
  comparable_pe := 25
  comparable_peg := 3/2

/-- A structurally valid input (positive revenue and shares, tax rate in
[0,1]) whose projected cash flows are all negative: zero EBITDA and
depreciation with positive capex, low WACC (risk-free 1 percent, beta 0)
below the 2 percent terminal growth. -/
def dneg : CompanyData where
  name := "NegFcf"
  sector := "Tech"
  revenue := 1000
  ebitda := 0
  depreciation := 0
  capex_pct := 1/10
  working_capital_change := 0
  profit_margin := 0
  growth_rate_y1 := 0
  growth_rate_y2 := 0
  growth_rate_y3 := 0
  terminal_growth := 1/50
  tax_rate := 0
  shares_outstanding := 1000
  debt := 0
  cash := 0
  market_cap_estimate := 1000
  beta := 0
  risk_free_rate := 1/100
  market_risk_premium := 0
  country_risk_premium := 0
  size_premium := 0
  comparable_ev_ebitda := 0
  comparable_pe := 0
  comparable_peg := 0

/-- The scenario input with a negative revenue. -/
def d_badrev : CompanyData :=
  { dspec with revenue := -5000000 }

/-- The scenario input with a tax rate of 150 percent. -/
def d_badtax : CompanyData :=
  { dspec with tax_rate := 3/2 }

/-- The scenario input with revenue zero. -/
def d_zero : CompanyData :=
  { dspec with revenue := 0 }

/-- The scenario input with zero shares outstanding. -/
def d_zeroshares : CompanyData :=
  { dspec with shares_outstanding := 0 }

/-- An ambient draw stream in which every gaussian draw is zero. -/
def zeroShocks : ℕ → ℚ × ℚ :=
  fun _ => (0, 0)

section

attribute [local semireducible] Rat.add Rat.sub Rat.mul Rat.inv Rat.ofScientific

/-- C3: the recommendation is determined by strict greater-than thresholds
evaluated in order with first match winning (STRONG BUY above 20, BUY
above 10, HOLD above -10, UNDERWEIGHT above -20, else SELL); the bands
are exhaustive and non-overlapping, exactly 20.0 maps to BUY, 20.01 to
STRONG BUY, exactly -10.0 to UNDERWEIGHT, and exactly -20.0 to SELL. -/
theorem recommendation_bands (u : ℚ) :
    (recommendation u = "STRONG BUY" ↔ 20 < u) ∧
    (recommendation u = "BUY" ↔ 10 < u ∧ u ≤ 20) ∧
    (recommendation u = "HOLD" ↔ -10 < u ∧ u ≤ 10) ∧
    (recommendation u = "UNDERWEIGHT" ↔ -20 < u ∧ u ≤ -10) ∧
    (recommendation u = "SELL" ↔ u ≤ -20) ∧
    recommendation 20 = "BUY" ∧ recommendation (2001/100) = "STRONG BUY" ∧
    recommendation (-10) = "UNDERWEIGHT" ∧ recommendation (-20) = "SELL" := by
  refine ⟨?_, ?_, ?_, ?_, ?_, by decide, by decide, by decide, by decide⟩ <;>
    unfold recommendation <;> split_ifs with h1 h2 h3 h4
  · exact iff_of_true rfl h1
  · exact iff_of_false (by decide) h1
  · exact iff_of_false (by decide) h1
  · exact iff_of_false (by decide) h1
  · exact iff_of_false (by decide) h1
  · exact iff_of_false (by decide) fun hc => hc.2.not_lt h1
  · exact iff_of_true rfl ⟨h2, not_lt.mp h1⟩
  · exact iff_of_false (by decide) fun hc => h2 hc.1
  · exact iff_of_false (by decide) fun hc => h2 hc.1
  · exact iff_of_false (by decide) fun hc => h2 hc.1
  · exact iff_of_false (by decide) fun hc => hc.2.not_lt (lt_trans (by norm_num) h1)
  · exact iff_of_false (by decide) fun hc => hc.2.not_lt h2
  · exact iff_of_true rfl ⟨h3, not_lt.mp h2⟩
  · exact iff_of_false (by decide) fun hc => h3 hc.1
  · exact iff_of_false (by decide) fun hc => h3 hc.1
  · exact iff_of_false (by decide) fun hc => hc.2.not_lt (lt_trans (by norm_num) h1)
  · exact iff_of_false (by decide) fun hc => hc.2.not_lt (lt_trans (by norm_num) h2)
  · exact iff_of_false (by decide) fun hc => hc.2.not_lt h3
  · exact iff_of_true rfl ⟨h4, not_lt.mp h3⟩
  · exact iff_of_false (by decide) fun hc => h4 hc.1
  · exact iff_of_false (by decide) fun hc => hc.not_lt (lt_trans (by norm_num) h1)
  · exact iff_of_false (by decide) fun hc => hc.not_lt (lt_trans (by norm_num) h2)
  · exact iff_of_false (by decide) fun hc => hc.not_lt (lt_trans (by norm_num) h3)
  · exact iff_of_false (by decide) fun hc => hc.not_lt h4
  · exact iff_of_true rfl (not_lt.mp h4)

/-- C8: every division in the ratio computation is guarded, and the
defaults are as claimed: with ebitda at most 0 the three EBITDA ratios
are exactly 0; with profit at most 0 the P/E is exactly 0; with equity
value at most 0 the FCF yield, debt-to-equity and ROE are 0; with zero
debt (zero imputed interest expense) the interest coverage is exactly
999. -/
theorem ratio_guards (revenue ebitda profit debt cash equity_value shares fcf : ℚ) :
    (ebitda ≤ 0 →
      (calculate_financial_ratios revenue ebitda profit debt cash equity_value shares
          fcf).ev_ebitda = 0 ∧
      (calculate_financial_ratios revenue ebitda profit debt cash equity_value shares
          fcf).debt_to_ebitda = 0 ∧
      (calculate_financial_ratios revenue ebitda profit debt cash equity_value shares
          fcf).net_debt_to_ebitda = 0) ∧
    (profit ≤ 0 →
      (calculate_financial_ratios revenue ebitda profit debt cash equity_value shares
          fcf).pe = 0) ∧
    (equity_value ≤ 0 →
      (calculate_financial_ratios revenue ebitda profit debt cash equity_value shares
          fcf).fcf_yield = 0 ∧
      (calculate_financial_ratios revenue ebitda profit debt cash equity_value shares
          fcf).debt_to_equity = 0 ∧
      (calculate_financial_ratios revenue ebitda profit debt cash equity_value shares
          fcf).roe = 0) ∧
    (debt = 0 →
      (calculate_financial_ratios revenue ebitda profit debt cash equity_value shares
          fcf).interest_coverage = 999) := by
  refine ⟨fun h => ?_, fun h => ?_, fun h => ?_, fun h => ?_⟩
  · have h' : ¬ (0 : ℚ) < ebitda := not_lt.mpr h
    refine ⟨?_, ?_, ?_⟩ <;> simp [calculate_financial_ratios, h']
  · have h' : ¬ (0 : ℚ) < profit := not_lt.mpr h
    simp [calculate_financial_ratios, h']
  · have h' : ¬ (0 : ℚ) < equity_value := not_lt.mpr h
    refine ⟨?_, ?_, ?_⟩ <;> simp [calculate_financial_ratios, h']
  · simp [calculate_financial_ratios, h]

/-- C8 witness: the guard defaults evaluated at a concrete input with
zero ebitda, zero profit, zero equity value and zero debt. -/
theorem ratio_guards_witness :
    (calculate_financial_ratios 100 0 0 0 50 0 10 5).ev_ebitda = 0 ∧
    (calculate_financial_ratios 100 0 0 0 50 0 10 5).pe = 0 ∧
    (calculate_financial_ratios 100 0 0 0 50 0 10 5).fcf_yield = 0 ∧
    (calculate_financial_ratios 100 0 0 0 50 0 10 5).interest_coverage = 999 := by
  have h := ratio_guards 100 0 0 0 50 0 10 5
  exact ⟨(h.1 (by decide)).1, h.2.1 (by decide), (h.2.2.1 (by decide)).1, h.2.2.2 (by decide)⟩

/-- C9: with zero total capital, `calculate_wacc` returns the CAPM cost
of equity as a bare scalar (`Sum.inl`), not the `(wacc, cost_of_equity,
cost_of_debt)` triple; the three-way unpack at the call site
(valuation_professional.py line 169) therefore raises a `TypeError`
instead of delivering the value in the triple form.  Evaluated here at
the failing input and proved in general. -/
theorem wacc_zero_capital_scalar :
    calculate_wacc (1/25) 1 (7/100) 0 0 (1/4) 0 0 =
      Sum.inl (cost_of_equity (1/25) 1 (7/100) 0 0) ∧
    cost_of_equity (1/25) 1 (7/100) 0 0 = 11/100 ∧
    (∀ rf beta mrp debt equity_value tax cr sp : ℚ, debt + equity_value = 0 →
      calculate_wacc rf beta mrp debt equity_value tax cr sp =
        Sum.inl (cost_of_equity rf beta mrp cr sp)) := by
  refine ⟨by decide, by decide, fun rf beta mrp debt equity_value tax cr sp h => ?_⟩
  unfold calculate_wacc
  rw [if_pos h]

/-- C9 witness: the general zero-total-capital form applied at debt 5 and
equity value -5. -/
theorem wacc_zero_capital_scalar_witness :
    calculate_wacc 0 2 (1/10) 5 (-5) 0 0 0 = Sum.inl (cost_of_equity 0 2 (1/10) 0 0) :=
  wacc_zero_capital_scalar.2.2 0 2 (1/10) 5 (-5) 0 0 0 (by decide)

/-- C10: the interest coverage is not capped at 999: at ebitda 1000 and
debt 1/10 it is 200000; in general for positive debt it is the raw
quotient `ebitda / (debt * 0.05)`, and 999 is only the zero-debt
default. -/
theorem interest_coverage_uncapped :
    ((calculate_financial_ratios 0 1000 0 (1/10) 0 0 0 0).interest_coverage = 200000 ∧
      999 < (calculate_financial_ratios 0 1000 0 (1/10) 0 0 0 0).interest_coverage) ∧
    (∀ revenue ebitda profit debt cash equity_value shares fcf : ℚ, 0 < debt →
      (calculate_financial_ratios revenue ebitda profit debt cash equity_value shares
          fcf).interest_coverage = ebitda / (debt * (5/100))) := by
  refine ⟨by decide, fun revenue ebitda profit debt cash equity_value shares fcf h => ?_⟩
  have hpos : (0 : ℚ) < debt * (5/100) := by positivity
  simp [calculate_financial_ratios, hpos]

/-- C10 witness: the general uncapped-quotient form applied at debt 2 and
ebitda 1000, giving coverage 10000. -/
theorem interest_coverage_uncapped_witness :
    (calculate_financial_ratios 0 1000 0 2 0 0 0 0).interest_coverage = 1000 / (2 * (5/100)) ∧
    (1000 : ℚ) / (2 * (5/100)) = 10000 := by
  exact ⟨interest_coverage_uncapped.2 0 1000 0 2 0 0 0 0 (by decide), by decide⟩

/-- C6 counterexample: with a zero market risk premium, raising beta from
1 to 2 leaves both the cost of equity and the WACC unchanged, so a
strictly larger beta does not always yield a strictly larger cost of
equity or WACC. -/
theorem wacc_beta_flat_cex :
    (1 : ℚ) < 2 ∧
    cost_of_equity (1/25) 1 0 0 0 = cost_of_equity (1/25) 2 0 0 0 ∧
    calculate_wacc (1/25) 1 0 100 1000 (1/4) 0 0 =
      calculate_wacc (1/25) 2 0 100 1000 (1/4) 0 0 := by
  decide

/-- C6 amended: for a strictly positive market risk premium, a strictly
larger beta yields a strictly larger CAPM cost of equity; and with a
strictly positive equity value (and nonnegative debt) it also yields a
strictly larger WACC, the other inputs held fixed. -/
theorem wacc_beta_monotone (rf b1 b2 mrp debt equity_value tax cr sp : ℚ)
    (hb : b1 < b2) (hmrp : 0 < mrp) (heq : 0 < equity_value) (hdebt : 0 ≤ debt) :
    cost_of_equity rf b1 mrp cr sp < cost_of_equity rf b2 mrp cr sp ∧
    ∃ w1 w2 coe1 coe2 cod : ℚ,
      calculate_wacc rf b1 mrp debt equity_value tax cr sp = Sum.inr (w1, coe1, cod) ∧
      calculate_wacc rf b2 mrp debt equity_value tax cr sp = Sum.inr (w2, coe2, cod) ∧
      coe1 < coe2 ∧ w1 < w2 := by
  have htot : (0 : ℚ) < debt + equity_value := by linarith
  have hcoe : cost_of_equity rf b1 mrp cr sp < cost_of_equity rf b2 mrp cr sp := by
    unfold cost_of_equity
    have := mul_lt_mul_of_pos_right hb hmrp
    linarith
  refine ⟨hcoe,
    equity_value / (debt + equity_value) * cost_of_equity rf b1 mrp cr sp +
      debt / (debt + equity_value) *
        (rf + if debt > equity_value then (25/1000 : ℚ) else 15/1000) * (1 - tax),
    equity_value / (debt + equity_value) * cost_of_equity rf b2 mrp cr sp +
      debt / (debt + equity_value) *
        (rf + if debt > equity_value then (25/1000 : ℚ) else 15/1000) * (1 - tax),
    cost_of_equity rf b1 mrp cr sp, cost_of_equity rf b2 mrp cr sp,
    rf + if debt > equity_value then (25/1000 : ℚ) else 15/1000, ?_, ?_, hcoe, ?_⟩
  · unfold calculate_wacc
    rw [if_neg htot.ne']
  · unfold calculate_wacc
    rw [if_neg htot.ne']
  · have hw : 0 < equity_value / (debt + equity_value) := div_pos heq htot
    have := mul_lt_mul_of_pos_left hcoe hw
    linarith

/-- C6 witness: beta 1 versus 3/2 at the §8 scenario risk inputs with a
positive market risk premium and equity value. -/
theorem wacc_beta_monotone_witness :
    cost_of_equity (1/25) 1 (7/100) 0 (3/100) < cost_of_equity (1/25) (3/2) (7/100) 0 (3/100) ∧
    ∃ w1 w2 coe1 coe2 cod : ℚ,
      calculate_wacc (1/25) 1 (7/100) 500000 3000000 (1/4) 0 (3/100) =
        Sum.inr (w1, coe1, cod) ∧
      calculate_wacc (1/25) (3/2) (7/100) 500000 3000000 (1/4) 0 (3/100) =
        Sum.inr (w2, coe2, cod) ∧
      coe1 < coe2 ∧ w1 < w2 :=
  wacc_beta_monotone (1/25) 1 (3/2) (7/100) 500000 3000000 (1/4) 0 (3/100)
    (by decide) (by decide) (by decide) (by decide)

/-- C2 counterexample: a structurally valid input whose WACC (1 percent)
is below its terminal growth (2 percent) and whose year-10 FCF is
negative; the clamp fires, the computation does not raise, but the
resulting terminal value is strictly negative, not positive. -/
theorem terminal_value_negative_cex :
    0 < dneg.revenue ∧ 0 < dneg.shares_outstanding ∧
    0 ≤ dneg.tax_rate ∧ dneg.tax_rate ≤ 1 ∧
    calculate_wacc dneg.risk_free_rate dneg.beta dneg.market_risk_premium dneg.debt
      dneg.market_cap_estimate dneg.tax_rate dneg.country_risk_premium dneg.size_premium =
      Sum.inr (1/100, 1/100, 1/40) ∧
    (1/100 : ℚ) ≤ dneg.terminal_growth ∧
    terminal_fcf dneg (1/100) < 0 ∧
    terminal_value dneg (1/100) < 0 := by
  decide

/-- C2 amended: whenever WACC is at most the terminal growth, the clamp
rewrites the terminal growth to WACC minus 0.01, so the Gordon
denominator is exactly 0.01 (never zero, so the division never raises
and is finite), the terminal value is 100 times the terminal FCF, and it
is positive exactly when the terminal FCF (computed from the pre-clamp
growth) is positive. -/
theorem terminal_clamp_denominator (d : CompanyData) (w : ℚ) (h : w ≤ d.terminal_growth) :
    clamped_tg d w = w - 1/100 ∧
    w - clamped_tg d w = 1/100 ∧
    terminal_value d w = terminal_fcf d w * 100 ∧
    (0 < terminal_fcf d w ↔ 0 < terminal_value d w) := by
  have h1 : clamped_tg d w = w - 1/100 := by
    unfold clamped_tg
    rw [if_pos h, min_eq_right (by linarith)]
  have h2 : w - clamped_tg d w = 1/100 := by rw [h1]; ring
  have h3 : terminal_value d w = terminal_fcf d w * 100 := by
    unfold terminal_value
    rw [h2, div_eq_mul_inv]
    norm_num
  refine ⟨h1, h2, h3, ?_⟩
  rw [h3]
  constructor
  · intro hp; positivity
  · intro hp; nlinarith

/-- C2 witness: the clamp conclusions instantiated at the negative-FCF
input with WACC 1 percent. -/
theorem terminal_clamp_denominator_witness :
    clamped_tg dneg (1/100) = 1/100 - 1/100 ∧
    (1/100 : ℚ) - clamped_tg dneg (1/100) = 1/100 ∧
    terminal_value dneg (1/100) = terminal_fcf dneg (1/100) * 100 ∧
    (0 < terminal_fcf dneg (1/100) ↔ 0 < terminal_value dneg (1/100)) :=
  terminal_clamp_denominator dneg (1/100) (by decide)

/-- C5 counterexample: with identical base value, volatilities and
iteration count, two different states of the ambient draw stream give
different Monte Carlo summaries (here different p10), so the output is
not a function of the valuation input alone: the engine draws from the
global random state and takes no seed. -/
theorem monte_carlo_ambient_cex :
    (monte_carlo_valuation 100 (15/100) (1/10) (fun _ => (0, 0)) 2).p10 = 100 ∧
    (monte_carlo_valuation 100 (15/100) (1/10) (fun _ => (2, 0)) 2).p10 = 130 ∧
    monte_carlo_valuation 100 (15/100) (1/10) (fun _ => (0, 0)) 2 ≠
      monte_carlo_valuation 100 (15/100) (1/10) (fun _ => (2, 0)) 2 := by
  decide

/-- C5 amended: the Monte Carlo summary is a deterministic function of
the base value, the volatilities and the first `iterations` ambient
draws: two runs whose ambient draw streams agree on the consumed
prefix produce identical summaries. -/
theorem monte_carlo_stream_determinism (base gv dv : ℚ) (s1 s2 : ℕ → ℚ × ℚ) (n : ℕ)
    (h : ∀ i, i < n → s1 i = s2 i) :
    monte_carlo_valuation base gv dv s1 n = monte_carlo_valuation base gv dv s2 n := by
  unfold monte_carlo_valuation
  have hres : ((List.range n).map fun i => base * (1 + gv * (s1 i).1) / (1 + dv * (s1 i).2)) =
      (List.range n).map fun i => base * (1 + gv * (s2 i).1) / (1 + dv * (s2 i).2) := by
    refine List.map_congr_left fun i hi => ?_
    rw [h i (List.mem_range.mp hi)]
  rw [hres]

/-- C5 witness: two streams that agree on the two consumed draws but
differ beyond them give the same summary. -/
theorem monte_carlo_stream_determinism_witness :
    monte_carlo_valuation 100 (15/100) (1/10) (fun _ => ((0 : ℚ), (0 : ℚ))) 2 =
      monte_carlo_valuation 100 (15/100) (1/10)
        (fun i => if i < 2 then ((0 : ℚ), (0 : ℚ)) else (1, 1)) 2 :=
  monte_carlo_stream_determinism 100 (15/100) (1/10) _ _ 2
    (by intro i hi; simp [hi])

/-- One loop iteration started from the claim-side state for year `i`
lands on the claim-side state for year `i + 1`: definitional unfolding of
both sides. -/
theorem projStep_spec (d : CompanyData) (w S : ℚ) (L : List ℚ) (i : ℕ) :
    projStep d w
      { current_revenue := yearRevenue d i, total_pv_fcf := S, projected_fcf := L } i =
      { current_revenue := yearRevenue d (i + 1)
        total_pv_fcf := S + yearFCF d (i + 1) * (1 / (1 + w) ^ (i + 1))
        projected_fcf := L ++ [yearFCF d (i + 1)] } :=
  rfl

/-- The projection loop run for `n` years computes the claim-side closed
forms: the year-`n` revenue, the discounted FCF sum over years 1..n, and
the list of the yearly FCF values. -/
theorem projection_invariant (d : CompanyData) (w : ℚ) (n : ℕ) :
    (List.range n).foldl (projStep d w)
      { current_revenue := d.revenue, total_pv_fcf := 0, projected_fcf := [] } =
      { current_revenue := yearRevenue d n
        total_pv_fcf := ∑ t in Finset.Icc 1 n, yearFCF d t * (1 / (1 + w) ^ t)
        projected_fcf := (List.range n).map fun i => yearFCF d (i + 1) } := by
  induction n with
  | zero => simp [yearRevenue]
  | succ n ih =>
    rw [List.range_succ, List.foldl_append, ih, List.foldl_cons, List.foldl_nil, projStep_spec,
      Finset.sum_Icc_succ_top (by omega : 1 ≤ n + 1), List.map_append]
    rfl

/-- C1: the explicit DCF projection runs exactly 10 years over the
claimed growth schedule; revenue compounds year over year by the
schedule rate, the yearly FCF is NOPAT plus D and A minus capex minus
the working-capital charge (EBITDA and D and A held at base-year
margins, the charge compounding the base change), each year is
discounted by one over (1 + WACC) to the year power, and the DCF equity
value is the discounted FCF sum plus the discounted terminal value plus
cash minus debt, with the DCF price its ratio to shares outstanding. -/
theorem dcf_projection_matches_spec (d : CompanyData) (w : ℚ) :
    growth_schedule d = [d.growth_rate_y1, d.growth_rate_y1, d.growth_rate_y2, d.growth_rate_y2,
      d.growth_rate_y3, d.growth_rate_y3, (d.growth_rate_y3 + d.terminal_growth) / 2,
      d.terminal_growth + 1/100, d.terminal_growth + 1/200, d.terminal_growth] ∧
    (runProjection d w).projected_fcf.length = 10 ∧
    yearRevenue d 0 = d.revenue ∧
    (∀ t : Fin 10, yearRevenue d (t.1 + 1) = yearRevenue d t.1 * (1 + g_t d (t.1 + 1))) ∧
    (∀ t : Fin 10, yearFCF d (t.1 + 1) =
      (yearRevenue d (t.1 + 1) * (d.ebitda / d.revenue) -
          yearRevenue d (t.1 + 1) * (d.depreciation / d.revenue)) * (1 - d.tax_rate) +
        yearRevenue d (t.1 + 1) * (d.depreciation / d.revenue) -
        yearRevenue d (t.1 + 1) * d.capex_pct -
        d.working_capital_change * (1 + g_t d (t.1 + 1)) ^ (t.1 + 1)) ∧
    (runProjection d w).projected_fcf = ((List.range 10).map fun i => yearFCF d (i + 1)) ∧
    (runProjection d w).total_pv_fcf =
      ∑ t in Finset.Icc 1 10, yearFCF d t * (1 / (1 + w) ^ t) ∧
    (runProjection d w).current_revenue = yearRevenue d 10 ∧
    dcf_equity_value d w =
      (runProjection d w).total_pv_fcf + pv_terminal_value d w + d.cash - d.debt ∧
    dcf_price_per_share d w = dcf_equity_value d w / d.shares_outstanding := by
  have h := projection_invariant d w 10
  unfold runProjection
  rw [h]
  exact ⟨rfl, by simp, rfl, fun t => rfl, fun t => rfl, rfl, rfl, rfl, by rw [dcf_equity_value,
    runProjection, h], rfl⟩

/-- C7 counterexample: the standalone `sensitivity_analysis` routine does
not produce the values of the grid formula: on the single cell
(tg 2 percent, dr 10 percent) with base FCF 100 it returns the terminal
value discounted over 5 years, while the grid formula discounts over 10
years (and adds the FCF sum, cash and debt), and the two differ; a cell
with `dr <= tg` is omitted from its output entirely rather than marked
not-applicable. -/
theorem sensitivity_routine_cex :
    sensitivity_analysis 100 [1/50] [1/10] =
      [((1/50, 1/10), 1275 / (11/10) ^ 5)] ∧
    sens_cell 0 (100 * (1 + 1/50)) 0 0 (1/50) (1/10) = some (1275 / (11/10) ^ 10) ∧
    (1275 : ℚ) / (11/10) ^ 5 ≠ 1275 / (11/10) ^ 10 ∧
    sensitivity_analysis 100 [1/10] [1/20] = [] := by
  decide

/-- C7 amended: the inline grid of the facade is the claimed 5 by 5
table: discount rates WACC plus or minus up to 2 percent, terminal
growths the (clamped) terminal growth plus or minus up to 1 percent;
a cell is not-applicable exactly when its discount rate is at most its
terminal growth, and otherwise holds the base-WACC FCF sum plus the
cell-discounted terminal value plus cash minus debt.  The standalone
routine does not compute these values (see the counterexample). -/
theorem sensitivity_grid_spec (d : CompanyData) (w tp tf c b tg dr : ℚ) :
    dr_range w = [w - 2/100, w - 1/100, w, w + 1/100, w + 2/100] ∧
    tg_range (clamped_tg d w) = [clamped_tg d w - 1/100, clamped_tg d w - 1/200, clamped_tg d w,
      clamped_tg d w + 1/200, clamped_tg d w + 1/100] ∧
    sens_grid d w = ((tg_range (clamped_tg d w)).map fun tg0 => (dr_range w).map fun dr0 =>
      sens_cell (runProjection d w).total_pv_fcf (terminal_fcf d w) d.cash d.debt tg0 dr0) ∧
    (sens_grid d w).length = 5 ∧
    (∀ row ∈ sens_grid d w, row.length = 5) ∧
    (sens_cell tp tf c b tg dr = none ↔ dr ≤ tg) ∧
    (tg < dr → sens_cell tp tf c b tg dr =
      some (tp + tf / (dr - tg) / (1 + dr) ^ 10 + c - b)) := by
  refine ⟨rfl, rfl, rfl, rfl, ?_, ?_, ?_⟩
  · intro row hrow
    unfold sens_grid at hrow
    obtain ⟨tg0, htg0, rfl⟩ := List.mem_map.mp hrow
    rfl
  · unfold sens_cell
    split_ifs with hle
    · exact iff_of_true rfl hle
    · exact iff_of_false (by simp) hle
  · intro hlt
    unfold sens_cell
    rw [if_neg (not_le.mpr hlt)]

/-- C7 witness: the computed-cell formula applied at terminal growth
2 percent and discount rate 10 percent, and the grid dimensions at the
negative-FCF input. -/
theorem sensitivity_grid_spec_witness :
    sens_cell 0 (100 * (1 + 1/50)) 0 0 (1/50) (1/10) =
      some (0 + (100 * (1 + 1/50)) / (1/10 - 1/50) / (1 + 1/10) ^ 10 + 0 - 0) ∧
    (sens_grid dneg (1/100)).length = 5 :=
  ⟨(sensitivity_grid_spec dneg (1/100) 0 (100 * (1 + 1/50)) 0 0 (1/50) (1/10)).2.2.2.2.2.2
      (by norm_num),
    (sensitivity_grid_spec dneg (1/100) 0 0 0 0 0 0).2.2.2.1⟩

set_option maxRecDepth 20000 in
/-- C4 counterexample: the facade performs no input validation: with a
strictly negative revenue, or with a tax rate of 150 percent, the
valuation call does not fail; it computes and returns a complete output
record. -/
theorem facade_no_validation_cex :
    d_badrev.revenue < 0 ∧
    (enhanced_dcf_valuation d_badrev zeroShocks).isSome = true ∧
    (1 : ℚ) < d_badtax.tax_rate ∧
    (enhanced_dcf_valuation d_badtax zeroShocks).isSome = true := by
  decide

/-- C4 amended: the only failures the facade produces for the claimed
out-of-domain inputs are mid-computation zero divisions at revenue = 0
or shares = 0, which the service catches, yielding no output at all
(never a partial record, but also no field-level validation error);
revenue below 0 and tax rates outside [0,1] are silently accepted (see
the counterexample). -/
theorem facade_zero_division_none (d : CompanyData) (s : ℕ → ℚ × ℚ)
    (h : d.revenue = 0 ∨ d.shares_outstanding = 0) :
    enhanced_dcf_valuation d s = none := by
  unfold enhanced_dcf_valuation
  rcases h with h | h
  · rw [if_pos h]
  · by_cases hr : d.revenue = 0
    · rw [if_pos hr]
    · rw [if_neg hr]
      cases hw : calculate_wacc d.risk_free_rate d.beta d.market_risk_premium d.debt
          d.market_cap_estimate d.tax_rate d.country_risk_premium d.size_premium with
      | inl c => rfl
      | inr t =>
        obtain ⟨w, coe, cod⟩ := t
        dsimp only
        by_cases h1 : (1 : ℚ) + w = 0
        · rw [if_pos h1]
        · rw [if_neg h1, if_pos h]

/-- C4 witness: the facade yields no output at revenue zero and at zero
shares outstanding. -/
theorem facade_zero_division_none_witness :
    enhanced_dcf_valuation d_zero zeroShocks = none ∧
    enhanced_dcf_valuation d_zeroshares zeroShocks = none :=
  ⟨facade_zero_division_none d_zero zeroShocks (Or.inl rfl),
    facade_zero_division_none d_zeroshares zeroShocks (Or.inr rfl)⟩

end
